import Mathlib

/-!
Shallow embedding of the `emu` VM manager (Rust) for checking its
natural-language specification.  Each definition is translated from the
Rust source file and lines named in its doc comment.  Definitions whose
Rust original is absent from the sources are marked `Modelled from the
spec:`.
-/

set_option maxRecDepth 4096

namespace Emu

/-! ## Configuration model (src/config.rs) -/

/-- `MachineConfiguration` from src/config.rs lines 21-29.  Rust `u16`/`u32`
fields are modelled as `Nat`; the typed setter enforces the bounds at parse
time exactly as Rust `str::parse` does. -/
structure MachineConfiguration where
  ssh_port : Nat
  memory : Nat
  cpus : Nat
  cpu_type : String
  vga : String
  image_interface : String
deriving DecidableEq, Repr

/-- `Configuration` from src/config.rs lines 15-19.  `PortMap` is
`HashMap<String, u16>`; it is modelled as an association list from
stringified host ports to guest ports (one entry per key, iteration order
irrelevant to every embedded operation). -/
structure Configuration where
  machine : MachineConfiguration
  ports : List (String × Nat)
deriving DecidableEq, Repr

/-- The `Default` impl for `Configuration`, src/config.rs lines 37-51
(constants at lines 6-11). -/
def Configuration.defaultConfig : Configuration :=
  { machine :=
      { ssh_port := 2222
        memory := 16384
        cpus := 8
        cpu_type := "host"
        vga := "virtio"
        image_interface := "virtio" }
    ports := [] }

/-- `Configuration::valid`, src/config.rs lines 80-90. -/
def Configuration.valid (c : Configuration) : Except String Unit :=
  if c.machine.memory = 0 then .error "No memory value set"
  else if c.machine.cpus = 0 then .error "No cpus value set"
  else .ok ()

/-- `Configuration::is_port_conflict`, src/config.rs lines 54-64: a nested
loop over the two key sets returning true on the first equal pair. -/
def Configuration.is_port_conflict (a other : Configuration) : Bool :=
  a.ports.any fun kv => other.ports.any fun okv => kv.1 == okv.1

/-- Rust `str::parse::<uN>` for an unsigned integer type with maximum value
`bound`: an optional leading `+`, then one or more ASCII digits, and the
resulting value must fit the type; everything else is an error. -/
def parseUnsigned (bound : Nat) (s : String) : Option Nat :=
  let t := match s.data with
    | '+' :: rest => rest
    | cs => cs
  if t ≠ [] ∧ t.all Char.isDigit then
    let v := t.foldl (fun acc c => acc * 10 + (c.toNat - 48)) 0
    if v ≤ bound then some v else none
  else none

/-- `value.parse::<u32>()`. -/
def parseU32 (s : String) : Option Nat := parseUnsigned (2 ^ 32 - 1) s

/-- `value.parse::<u16>()`. -/
def parseU16 (s : String) : Option Nat := parseUnsigned (2 ^ 16 - 1) s

/-- `Configuration::set_machine_value`, src/config.rs lines 100-128.
`none` models the `Err` results (both the parse failures propagated by `?`
and the `key does not exist` fallback). -/
def Configuration.set_machine_value (c : Configuration) (key value : String) :
    Option Configuration :=
  match key with
  | "memory" =>
      (parseU32 value).map fun v => { c with machine := { c.machine with memory := v } }
  | "cpus" =>
      (parseU32 value).map fun v => { c with machine := { c.machine with cpus := v } }
  | "vga" => some { c with machine := { c.machine with vga := value } }
  | "image-interface" =>
      some { c with machine := { c.machine with image_interface := value } }
  | "cpu-type" => some { c with machine := { c.machine with cpu_type := value } }
  | "ssh-port" =>
      (parseU16 value).map fun v => { c with machine := { c.machine with ssh_port := v } }
  | _ => none

/-! ## Image handler (src/image.rs) -/

/-- `QEMU_IMG_PATH`, src/image.rs line 8: the external image tool. -/
def QEMU_IMG_PATH : String := "qemu-img"

/-- `QEMU_IMG_DEFAULT_FORMAT`, src/image.rs line 9. -/
def QEMU_IMG_DEFAULT_FORMAT : String := "qcow2"

/-- `qemu_img_name`, src/image.rs lines 11-20:
`format!("{}.{}", <seconds since the unix epoch>, QEMU_IMG_DEFAULT_FORMAT)`.
The clock read is passed in as `now`. -/
def qemu_img_name (now : Nat) : String :=
  Nat.repr now ++ "." ++ QEMU_IMG_DEFAULT_FORMAT

/-- A child process as configured through `std::process::Command`: the
spawned program, its argument list, and whether stdout/stderr were redirected
to `Stdio::null()`. -/
structure SpawnedCommand where
  program : String
  args : List String
  stdout_null : Bool
  stderr_null : Bool
deriving DecidableEq, Repr

/-- The child process `QEmuImager::import` spawns once its existence checks
pass, src/image.rs lines 61-73: `Command::new(&filename)` with
`filename = qemu_img_name()`, arguments
`convert -f <format> -O qcow2 <orig_file> <target>` (where `target` is
`storage.vm_path(name, &filename)`), and no `Stdio::null` redirection. -/
def QEmuImager.importCommand (now : Nat) (format orig_file target : String) :
    SpawnedCommand :=
  { program := qemu_img_name now
    args := ["convert", "-f", format, "-O", QEMU_IMG_DEFAULT_FORMAT, orig_file, target]
    stdout_null := false
    stderr_null := false }

/-- The child process `QEmuImager::create` spawns, src/image.rs lines
126-137: `Command::new(QEMU_IMG_PATH)` with arguments
`create -f <image_format> <filename> <gbs>G` and both output streams
nulled. -/
def QEmuImager.createCommand (image_format filename : String) (gbs : Nat) :
    SpawnedCommand :=
  { program := QEMU_IMG_PATH
    args := ["create", "-f", image_format, filename, Nat.repr gbs ++ "G"]
    stdout_null := true
    stderr_null := true }

/-- The filename `XDGConfigStorage::delete` removes when a disk argument is
given, src/config_storage.rs line 104:
`format!("qemu-{}.{}", disk, QEMU_IMG_DEFAULT_FORMAT)`. -/
def deleteDiskFilename (disk : String) : String :=
  "qemu-" ++ disk ++ "." ++ QEMU_IMG_DEFAULT_FORMAT

/-! ## VM entity (src/vm.rs) -/

/-- `Supervisors` from src/traits.rs lines 8-12 (`Pid` is the default). -/
inductive Supervisors where
  | systemd
  | pid
deriving DecidableEq, Repr

/-- `VM` from src/vm.rs lines 12-21.  Paths are modelled as strings; the
`interfaces` field (a list of network interfaces) is omitted because no
operation embedded here reads or writes it. -/
structure VM where
  name : String
  cdrom : Option String
  extra_disk : Option String
  config : Configuration
  headless : Bool
  supervisor : Supervisors
deriving DecidableEq, Repr

/-- The derived `Default` for `VM` (src/vm.rs line 12). -/
def VM.defaultVM : VM :=
  { name := ""
    cdrom := none
    extra_disk := none
    config := Configuration.defaultConfig
    headless := false
    supervisor := .pid }

/-- `VM::set_cdrom`, src/vm.rs lines 72-74. -/
def VM.set_cdrom (vm : VM) (cdrom : String) : VM :=
  { vm with cdrom := some cdrom }

/-- `VM::set_extra_disk`, src/vm.rs lines 80-82. -/
def VM.set_extra_disk (vm : VM) (ed : String) : VM :=
  { vm with extra_disk := some ed }

/-- The accessor `VM::extra_disk`, src/vm.rs lines 76-78: it returns
`self.cdrom.clone()`, not the `extra_disk` field.  (Lean does not allow the
method to reuse the projection's name, hence the `Get` suffix.) -/
def VM.extraDiskGet (vm : VM) : Option String :=
  vm.cdrom

/-- The accessor `VM::cdrom`, src/vm.rs lines 68-70. -/
def VM.cdromGet (vm : VM) : Option String :=
  vm.cdrom

/-! ## Supervisor (src/supervisor.rs) -/

/-- The `systemd` helper, src/supervisor.rs lines 99-116: it prepends
`--user` and spawns `/bin/systemctl` with both output streams nulled. -/
def systemdCommand (command : List String) : SpawnedCommand :=
  { program := "/bin/systemctl"
    args := "--user" :: command
    stdout_null := true
    stderr_null := true }

/-- `SystemdSupervisor::reload`, src/supervisor.rs lines 140-142: it
returns `Err("PIDs cannot be reloaded")` unconditionally and never invokes
the service manager.  The outcome a `systemctl --user daemon-reload` would
have had is passed in to make that independence expressible. -/
def SystemdSupervisor.reload (_daemonReloadOutcome : Except String Unit) :
    Except String Unit :=
  .error "PIDs cannot be reloaded"

/-- `SystemdSupervisor::supervised`, src/supervisor.rs lines 136-138. -/
def SystemdSupervisor.supervised : Bool := true

/-- Modelled from the spec: the service-manager supervisor's `reload()`
"triggers the service manager's user-daemon reload", i.e. it returns
whatever the daemon reload returned. -/
def specSystemdReload (daemonReloadOutcome : Except String Unit) :
    Except String Unit :=
  daemonReloadOutcome

/-! ## Config storage size (src/config_storage.rs) -/

/-- A directory entry as observed through `std::fs::read_dir` metadata:
either a regular file with its length or a subdirectory with its own
listing. -/
inductive FsEntry where
  | file (name : String) (size : Nat)
  | dir (name : String) (entries : List FsEntry)

/-- The size of a direct entry when it is a regular file
(`meta.is_file()`). -/
def FsEntry.fileSize : FsEntry → Option Nat
  | .file _ sz => some sz
  | .dir _ _ => none

/-- The collection loop of `XDGConfigStorage::size`, src/config_storage.rs
lines 151-160: a stack of directory listings is popped and each popped
listing's regular files are collected into `items`; nothing is ever pushed
onto the stack, so only the initial listing is processed. -/
def XDGConfigStorage.sizeLoop : List (List FsEntry) → List Nat → List Nat
  | [], items => items
  | d :: dirs, items =>
    XDGConfigStorage.sizeLoop dirs (items ++ d.filterMap FsEntry.fileSize)

/-- `XDGConfigStorage::size`, src/config_storage.rs lines 148-168, applied
to the listing of the VM root: collect, then sum the collected lengths. -/
def XDGConfigStorage.size (root : List FsEntry) : Nat :=
  (XDGConfigStorage.sizeLoop [root] []).sum

/-- Modelled from the spec: `size(vm)` is the "recursive sum of
regular-file sizes under the VM root", subdirectories included. -/
def specRecursiveSize : List FsEntry → Nat
  | [] => 0
  | .file _ sz :: rest => sz + specRecursiveSize rest
  | .dir _ entries :: rest => specRecursiveSize entries + specRecursiveSize rest

/-! ## QMP messages (src/qmp/messages/mod.rs) and client (src/qmp/client.rs) -/

/-- A JSON value as handled through serde_json.  Objects are association
lists; every object this client reads off the wire has distinct keys, so
duplicate-key errors are not modelled.  Every numeric field the embedded
parsers consult is integral. -/
inductive Json where
  | null
  | bool (b : Bool)
  | num (n : Int)
  | str (s : String)
  | arr (elems : List Json)
  | obj (fields : List (String × Json))

/-- serde string deserialization. -/
def Json.asString : Json → Option String
  | .str s => some s
  | _ => none

/-- serde `u64` deserialization. -/
def Json.asU64 : Json → Option Nat
  | .num n => if 0 ≤ n ∧ n < (2 : Int) ^ 64 then some n.toNat else none
  | _ => none

/-- serde deserialization of an `Option<A>` struct field: an absent or null
field is `none`; a present non-null field must parse. -/
def parseOptional {A : Type} (p : Json → Option A) (fields : List (String × Json))
    (k : String) : Option (Option A) :=
  match fields.lookup k with
  | none => some none
  | some .null => some none
  | some j => (p j).map some

/-- `Timestamp`, src/qmp/messages/mod.rs lines 60-64. -/
structure Timestamp where
  seconds : Nat
  microseconds : Nat
deriving DecidableEq, Repr

/-- `EventData`, src/qmp/messages/mod.rs lines 66-71: both fields are
required. -/
structure EventData where
  status : String
  id : String
deriving DecidableEq, Repr

/-- `Event`, src/qmp/messages/mod.rs lines 53-58. -/
structure Event where
  timestamp : Option Timestamp
  event : String
  data : Option EventData
deriving DecidableEq, Repr

/-- `ErrorDetail`, src/qmp/messages/mod.rs lines 88-93.  Rust's `class`
field is `class_` here because `class` is a Lean keyword. -/
structure ErrorDetail where
  class_ : String
  desc : String
deriving DecidableEq, Repr

/-- The `Display` impl for `ErrorDetail`, src/qmp/messages/mod.rs lines
95-99: `"{class}: {desc}"`. -/
def ErrorDetail.display (e : ErrorDetail) : String :=
  e.class_ ++ ": " ++ e.desc

/-- `ErrorReturn`, src/qmp/messages/mod.rs lines 77-80: the `error` field
is required. -/
structure ErrorReturn where
  error : ErrorDetail
deriving DecidableEq, Repr

/-- `GenericReturn`, src/qmp/messages/mod.rs lines 8-13: both fields are
optional; the `return` payload is `HashMap<(), ()>`, which deserializes
only from an empty JSON object, so it is modelled as `Option Unit`. -/
structure GenericReturn where
  result : Option Unit
  error : Option ErrorDetail
deriving DecidableEq, Repr

/-- The derived `Default` for `GenericReturn`. -/
def GenericReturn.defaultGR : GenericReturn :=
  { result := none, error := none }

/-- `JobInfo`, src/qmp/messages/mod.rs lines 42-51; serde renames the
fields to kebab-case on the wire (`current-progress`, `total-progress`)
and `type` to `typ` in Rust. -/
structure JobInfo where
  id : String
  typ : String
  status : String
  current_progress : Nat
  total_progress : Nat
  error : Option String
deriving DecidableEq, Repr

/-- `QueryJobs`, src/qmp/messages/mod.rs lines 35-39: required `return`
array. -/
structure QueryJobs where
  result : List JobInfo
deriving DecidableEq, Repr

/-- serde deserialization of `Timestamp`: both fields required. -/
def parseTimestamp : Json → Option Timestamp
  | .obj fs => do
    let s ← (fs.lookup "seconds").bind Json.asU64
    let ms ← (fs.lookup "microseconds").bind Json.asU64
    pure ⟨s, ms⟩
  | _ => none

/-- serde deserialization of `EventData`: both fields required. -/
def parseEventData : Json → Option EventData
  | .obj fs => do
    let st ← (fs.lookup "status").bind Json.asString
    let i ← (fs.lookup "id").bind Json.asString
    pure ⟨st, i⟩
  | _ => none

/-- serde deserialization of `Event`: `event` required, the rest
optional; unknown fields are ignored. -/
def parseEvent : Json → Option Event
  | .obj fs => do
    let ts ← parseOptional parseTimestamp fs "timestamp"
    let ev ← (fs.lookup "event").bind Json.asString
    let d ← parseOptional parseEventData fs "data"
    pure ⟨ts, ev, d⟩
  | _ => none

/-- serde deserialization of `ErrorDetail`. -/
def parseErrorDetail : Json → Option ErrorDetail
  | .obj fs => do
    let c ← (fs.lookup "class").bind Json.asString
    let d ← (fs.lookup "desc").bind Json.asString
    pure ⟨c, d⟩
  | _ => none

/-- serde deserialization of `ErrorReturn`. -/
def parseErrorReturn : Json → Option ErrorReturn
  | .obj fs => ((fs.lookup "error").bind parseErrorDetail).map ErrorReturn.mk
  | _ => none

/-- serde deserialization of `HashMap<(), ()>`: only the empty object
parses (a unit key cannot be deserialized from any JSON map key). -/
def parseUnitMap : Json → Option Unit
  | .obj [] => some ()
  | _ => none

/-- serde deserialization of `GenericReturn`. -/
def parseGenericReturn : Json → Option GenericReturn
  | .obj fs => do
    let r ← parseOptional parseUnitMap fs "return"
    let e ← parseOptional parseErrorDetail fs "error"
    pure ⟨r, e⟩
  | _ => none

/-- serde deserialization of `JobInfo`. -/
def parseJobInfo : Json → Option JobInfo
  | .obj fs => do
    let i ← (fs.lookup "id").bind Json.asString
    let t ← (fs.lookup "type").bind Json.asString
    let st ← (fs.lookup "status").bind Json.asString
    let cp ← (fs.lookup "current-progress").bind Json.asU64
    let tp ← (fs.lookup "total-progress").bind Json.asU64
    let e ← parseOptional Json.asString fs "error"
    pure ⟨i, t, st, cp, tp, e⟩
  | _ => none

/-- serde deserialization of `QueryJobs`. -/
def parseQueryJobs : Json → Option QueryJobs
  | .obj fs =>
    match fs.lookup "return" with
    | some (.arr xs) => (xs.mapM parseJobInfo).map QueryJobs.mk
    | _ => none
  | _ => none

/-- `impl From<GenericReturn> for Result<T>`, src/qmp/messages/mod.rs
lines 15-26: an error payload fails with its display form, else the
call is promoted to success with `T::default()`. -/
def GenericReturn.intoResult {T : Type} (g : GenericReturn) (tdefault : T) :
    Except String T :=
  match g.error with
  | some e => .error e.display
  | none => .ok tdefault

/-- `Client::read_input`, src/qmp/client.rs lines 24-54, at the level of
framed objects.  The byte loop accumulates lines until the `\r\n}\r\n`
sentinel and then interprets the object; `input` is the session's remaining
framed objects in arrival order.  The caller's expected type `T` is
represented by its serde parse function and its `Default` value; the
original serde error that is re-surfaced when nothing matches is
abstracted to the fixed message `json parse error`. -/
def readInput {T : Type} (pT : Json → Option T) (tdefault : T) :
    List Json → Except String T
  | [] => .error "Read past end of input"
  | j :: rest =>
    match pT j with
    | some obj => .ok obj
    | none =>
      match parseEvent j with
      | some _ => readInput pT tdefault rest
      | none =>
        match parseErrorReturn j with
        | some e => .error e.error.display
        | none =>
          match parseGenericReturn j with
          | some ret => ret.intoResult tdefault
          | none => .error "json parse error"

/-- Modelled from the spec: the interpretation order of §4.6 — event first,
then error-return, then the expected type, then generic-return, else the
original parse error.  Stated for comparison with `readInput`, which is
the order the code implements. -/
def specReadInput {T : Type} (pT : Json → Option T) (tdefault : T) :
    List Json → Except String T
  | [] => .error "Read past end of input"
  | j :: rest =>
    match parseEvent j with
    | some _ => specReadInput pT tdefault rest
    | none =>
      match parseErrorReturn j with
      | some e => .error e.error.display
      | none =>
        match pT j with
        | some obj => .ok obj
        | none =>
          match parseGenericReturn j with
          | some ret => ret.intoResult tdefault
          | none => .error "json parse error"

/-- A `STOP` event as the emulator emits it while a command response is
awaited. -/
def stopEvent : Json :=
  .obj [("event", .str "STOP"),
        ("timestamp", .obj [("seconds", .num 1), ("microseconds", .num 2)])]

/-- `Drive` from src/qmp/messages/block.rs (the many optional fields
`disk_nodes` never consults are omitted). -/
structure Drive where
  node_name : Option String
deriving DecidableEq, Repr

/-- `Block` from src/qmp/messages/block.rs. -/
structure Block where
  device : String
  inserted : Option Drive
deriving DecidableEq, Repr

/-- `Client::disk_nodes`, src/qmp/client.rs lines 99-113: collect the
`inserted.node_name` of every block device. -/
def Client.disk_nodes (blocks : List Block) : List String :=
  blocks.filterMap fun b => b.inserted.bind fun d => d.node_name

/-- The `arguments` object `Client::snapshot_save` sends, src/qmp/client.rs
lines 181-195.  The Rust code indexes `disks[0]` without an emptiness
check; that indexing panics on an empty vector, modelled as `none`. -/
def Client.snapshotSaveArguments (name : String) (disks : List String) :
    Option Json :=
  match disks with
  | [] => none
  | d0 :: _ =>
    some (.obj [("job-id", .str "snapshot"), ("tag", .str name),
                ("vmstate", .str d0), ("devices", .arr (disks.map Json.str))])

/-- The `arguments` object `Client::snapshot_load` sends, src/qmp/client.rs
lines 197-211: identical shape to the save arguments, including the
unguarded `disks[0]`. -/
def Client.snapshotLoadArguments (name : String) (disks : List String) :
    Option Json :=
  match disks with
  | [] => none
  | d0 :: _ =>
    some (.obj [("job-id", .str "snapshot"), ("tag", .str name),
                ("vmstate", .str d0), ("devices", .arr (disks.map Json.str))])

/-- The `arguments` object `Client::snapshot_delete` sends, src/qmp/client.rs
lines 213-226: no `vmstate` entry and no indexing, so it is total. -/
def Client.snapshotDeleteArguments (name : String) (disks : List String) : Json :=
  .obj [("job-id", .str "snapshot"), ("tag", .str name),
        ("devices", .arr (disks.map Json.str))]

/-! ## Launcher argument assembly (src/launcher/emulators/qemu/linux.rs) -/

/-- Modelled from the spec: `Configuration::check_ports` is invoked by
`hostfwd_rules` (src/launcher/emulators/qemu/linux.rs line 36) but its
definition is absent from the sources.  Per the spec's error taxonomy
("invalid port number" is a validation error) it checks that every
port-map key is a valid port number. -/
def Configuration.check_ports (c : Configuration) : Except String Unit :=
  if c.ports.all (fun kv => (parseU16 kv.1).isSome) then .ok ()
  else .error "invalid port number"

/-- The hostfwd concatenation of `Emulator::hostfwd_rules`,
src/launcher/emulators/qemu/linux.rs lines 37-40:
`,hostfwd=tcp:127.0.0.1:<host>-:<guest>` per port mapping, in the port
map's iteration order. -/
def Emulator.hostfwdString (c : Configuration) : String :=
  c.ports.foldl
    (fun res kv => res ++ ",hostfwd=tcp:127.0.0.1:" ++ kv.1 ++ "-:" ++ Nat.repr kv.2) ""

/-- `Emulator::hostfwd_rules`, src/launcher/emulators/qemu/linux.rs lines
34-43. -/
def Emulator.hostfwd_rules (c : Configuration) : Except String String :=
  match c.check_ports with
  | .error e => .error e
  | .ok _ => .ok (Emulator.hostfwdString c)

/-- `Emulator::cdrom_rules`, src/launcher/emulators/qemu/linux.rs lines
45-59.  `disk_exists` stands for the `std::fs::metadata` probe on the
override path. -/
def Emulator.cdrom_rules (v : List String) (disk : Option String)
    (disk_exists : Bool) (index : Nat) : Except String (List String) :=
  match disk with
  | none => .ok v
  | some cd =>
    if disk_exists then
      .ok (v ++ ["-drive", "file=" ++ cd ++ ",media=cdrom,index=" ++ Nat.repr index])
    else .error "error locating cdrom file"

/-- `Emulator::display_rule`, src/launcher/emulators/qemu/linux.rs lines
61-68. -/
def Emulator.display_rule (v : List String) (headless : Bool) : List String :=
  let v := v ++ ["-display"]
  if !headless then v ++ ["gtk"] else v ++ ["none"]

/-- The per-disk `-drive` arguments built in `Emulator::args`,
src/launcher/emulators/qemu/linux.rs lines 76-86: index `x` is the disk's
0-based position in the sorted disk list. -/
def Emulator.diskArgs (c : Configuration) (disk_list : List String) : List String :=
  disk_list.enum.flatMap fun p =>
    ["-drive",
     "driver=" ++ QEMU_IMG_DEFAULT_FORMAT ++ ",if=" ++ c.machine.image_interface ++
       ",file=" ++ p.2 ++ ",cache=writethrough,media=disk,index=" ++ Nat.repr p.1]

/-- `Emulator::args`, src/launcher/emulators/qemu/linux.rs lines 72-123.
`disk_list` is the store's sorted disk listing for the VM and `mon` its
monitor-socket path.  The index handed to `cdrom_rules` is
`(disks.len() + 2) as u8` — but it is computed after `v.append(&mut disks)`
has moved every element out of `disks` and left it empty, so it is always
2 (3 for the extra disk) whatever the number of disks; at length 0 the
`as u8` wrap is the identity. -/
def Emulator.args (config : Configuration) (disk_list : List String) (mon : String)
    (headless : Bool) (cdrom extra_disk : Option String)
    (cdrom_exists extra_exists : Bool) : Except String (List String) :=
  match config.valid with
  | .error _ => .error "vm configuration is invalid"
  | .ok _ =>
    let disks := Emulator.diskArgs config disk_list
    match Emulator.hostfwd_rules config with
    | .error e => .error e
    | .ok fwd =>
      let c := Nat.repr config.machine.cpus
      let v : List String :=
        ["-nodefaults",
         "-chardev", "socket,server=on,wait=off,id=char0,path=" ++ mon,
         "-mon", "chardev=char0,mode=control,pretty=on",
         "-machine", "accel=kvm",
         "-vga", config.machine.vga,
         "-m", Nat.repr config.machine.memory ++ "M",
         "-cpu", config.machine.cpu_type,
         "-smp", "cpus=" ++ c ++ ",cores=" ++ c ++ ",maxcpus=" ++ c,
         "-nic", "user" ++ fwd]
      let v := v ++ disks
      let v := Emulator.display_rule v headless
      match Emulator.cdrom_rules v cdrom cdrom_exists 2 with
      | .error e => .error e
      | .ok v =>
        match Emulator.cdrom_rules v extra_disk extra_exists 3 with
        | .error e => .error e
        | .ok v => .ok v

end Emu

/-! ## Theorems -/

namespace Emu

/-- Claim C5: `is_port_conflict(a, b)` is true iff the key sets of the two
port maps intersect, and consequently it is symmetric in its arguments. -/
theorem is_port_conflict_iff_and_comm (a b : Configuration) :
    (a.is_port_conflict b = true ↔
      ∃ k, (∃ g, (k, g) ∈ a.ports) ∧ ∃ g, (k, g) ∈ b.ports) ∧
    a.is_port_conflict b = b.is_port_conflict a := by
  have key : ∀ x y : Configuration,
      x.is_port_conflict y = true ↔
        ∃ k, (∃ g, (k, g) ∈ x.ports) ∧ ∃ g, (k, g) ∈ y.ports := by
    intro x y
    simp only [Configuration.is_port_conflict, List.any_eq_true, beq_iff_eq]
    constructor
    · rintro ⟨⟨k, g⟩, hk, ⟨k2, g2⟩, hk2, rfl⟩
      exact ⟨k, ⟨g, hk⟩, g2, hk2⟩
    · rintro ⟨k, ⟨g, hk⟩, g2, hk2⟩
      exact ⟨⟨k, g⟩, hk, ⟨k, g2⟩, hk2, rfl⟩
  refine ⟨key a b, Bool.eq_iff_iff.mpr ?_⟩
  rw [key a b, key b a]
  constructor <;> rintro ⟨k, hx, hy⟩ <;> exact ⟨k, hy, hx⟩

/-- Claim C7 counterexample: `memory` is one of the enumerated machine keys,
yet `set_machine_value("memory", "lots")` fails, because the value must also
parse as a `u32`; so success does not hold for every value once the key is
in the set. -/
theorem set_machine_value_memory_nonnumeric_fails :
    Configuration.defaultConfig.set_machine_value "memory" "lots" = none := by
  decide

/-- Claim C7 (amended): `set_machine_value(k, v)` succeeds iff k is one of
the enumerated keys and, for the numeric keys, v additionally parses as the
field's integer type: `vga`, `image-interface` and `cpu-type` accept every
value, `memory` and `cpus` require a valid `u32`, and `ssh-port` requires a
valid `u16`; every key outside the set fails. -/
theorem set_machine_value_succeeds_iff (c : Configuration) (key value : String) :
    (c.set_machine_value key value).isSome = true ↔
      ((key = "vga" ∨ key = "image-interface" ∨ key = "cpu-type") ∨
       ((key = "memory" ∨ key = "cpus") ∧ (parseU32 value).isSome = true) ∨
       (key = "ssh-port" ∧ (parseU16 value).isSome = true)) := by
  unfold Configuration.set_machine_value
  split <;> simp_all

/-- The argument list `Emulator::args` assembles for a valid default
configuration with one disk, headless, with an existing cdrom override and
no extra image. -/
def argsOneDiskExample : List String :=
  ["-nodefaults",
   "-chardev", "socket,server=on,wait=off,id=char0,path=/vm/mon",
   "-mon", "chardev=char0,mode=control,pretty=on",
   "-machine", "accel=kvm",
   "-vga", "virtio",
   "-m", "16384M",
   "-cpu", "host",
   "-smp", "cpus=8,cores=8,maxcpus=8",
   "-nic", "user",
   "-drive", "driver=qcow2,if=virtio,file=/vm/a.qcow2,cache=writethrough,media=disk,index=0",
   "-display", "none",
   "-drive", "file=/cd.iso,media=cdrom,index=2"]

/-- Claim C1 counterexample: at a valid configuration (the defaults) with
one disk and an existing cdrom override, the assembled argument list
contains no `-snapshot` at all (so in particular not as the third option),
the disk drive argument uses `cache=writethrough` with no `snapshot=on`
rather than the claimed `cache=none,...,snapshot=on`, and the cdrom drive
uses index 2, not disks + 2 = 3. -/
theorem args_counterexample :
    Emulator.args Configuration.defaultConfig ["/vm/a.qcow2"] "/vm/mon" true
        (some "/cd.iso") none true true = .ok argsOneDiskExample ∧
    argsOneDiskExample.contains "-snapshot" = false ∧
    argsOneDiskExample.contains "file=/cd.iso,media=cdrom,index=3" = false ∧
    argsOneDiskExample.contains "file=/cd.iso,media=cdrom,index=2" = true ∧
    argsOneDiskExample.contains
      "driver=qcow2,if=virtio,file=/vm/a.qcow2,cache=none,media=disk,index=0,snapshot=on"
      = false ∧
    argsOneDiskExample.contains
      "driver=qcow2,if=virtio,file=/vm/a.qcow2,cache=writethrough,media=disk,index=0"
      = true := by
  refine ⟨rfl, by decide, by decide, by decide, by decide, by decide⟩

/-- Claim C1 (amended): for every valid configuration whose port map passes
the port check, the assembled list is exactly: the fixed head options
(`-nodefaults`, the chardev socket spec, the monitor, `accel=kvm`, vga,
memory, cpu, smp, nic — with no `-snapshot` among them), then per disk at
0-based index i a `-drive` of the form
`driver=qcow2,if=<image_interface>,file=<path>,cache=writethrough,media=disk,index=<i>`,
then the display option, then — when a cdrom override is present and the
file exists — a cdrom drive whose index is always 2, and — when an
extra-image override is present and the file exists — an extra drive whose
index is always 3, both regardless of the number of disks (the Rust index
expressions read `disks.len()` after `Vec::append` has emptied `disks`). -/
theorem args_closed_form (config : Configuration) (disk_list : List String)
    (mon : String) (headless : Bool) (cd ex : String)
    (hv : config.valid = .ok ()) (hcp : config.check_ports = .ok ()) :
    Emulator.args config disk_list mon headless (some cd) (some ex) true true =
      .ok (((["-nodefaults",
        "-chardev", "socket,server=on,wait=off,id=char0,path=" ++ mon,
        "-mon", "chardev=char0,mode=control,pretty=on",
        "-machine", "accel=kvm",
        "-vga", config.machine.vga,
        "-m", Nat.repr config.machine.memory ++ "M",
        "-cpu", config.machine.cpu_type,
        "-smp", "cpus=" ++ Nat.repr config.machine.cpus ++ ",cores=" ++
          Nat.repr config.machine.cpus ++ ",maxcpus=" ++ Nat.repr config.machine.cpus,
        "-nic", "user" ++ Emulator.hostfwdString config]
        ++ Emulator.diskArgs config disk_list
        ++ ["-display", if headless then "none" else "gtk"])
        ++ ["-drive", "file=" ++ cd ++ ",media=cdrom,index=" ++ Nat.repr 2])
        ++ ["-drive", "file=" ++ ex ++ ",media=cdrom,index=" ++ Nat.repr 3]) := by
  unfold Emulator.args Emulator.hostfwd_rules Emulator.cdrom_rules
    Emulator.display_rule
  rw [hv, hcp]
  cases headless <;> simp

/-- Claim C1 witness: the closed form evaluated at the defaults with one
disk, a cdrom override and an extra-image override — the one disk sits at
drive index 0 while the cdrom drive gets index 2 and the extra drive
index 3. -/
theorem args_closed_form_witness :
    Configuration.defaultConfig.valid = .ok () ∧
    Configuration.defaultConfig.check_ports = .ok () ∧
    Emulator.args Configuration.defaultConfig ["/vm/a.qcow2"] "/vm/mon" true
        (some "/cd.iso") (some "/extra.img") true true =
      .ok (argsOneDiskExample ++ ["-drive", "file=/extra.img,media=cdrom,index=3"]) :=
  ⟨rfl, rfl,
    (args_closed_form Configuration.defaultConfig ["/vm/a.qcow2"] "/vm/mon" true
        "/cd.iso" "/extra.img" rfl rfl).trans (congrArg Except.ok (by decide))⟩

/-- Claim C8: `SystemdSupervisor::supervised()` is indeed true, but
`reload()` is an unconditional error — for every outcome the service
manager's user-daemon reload could have had, it returns
`Err("PIDs cannot be reloaded")`, and in particular it differs from the
spec-modelled reload even when the daemon reload succeeds. -/
theorem systemd_reload_always_errors (outcome : Except String Unit) :
    SystemdSupervisor.reload outcome = .error "PIDs cannot be reloaded" ∧
    SystemdSupervisor.supervised = true ∧
    specSystemdReload (.ok ()) = .ok () ∧
    SystemdSupervisor.reload (.ok ()) ≠ specSystemdReload (.ok ()) :=
  ⟨rfl, rfl, rfl, fun h => Except.noConfusion h⟩

/-- Claim C6: `size` sums only the regular files that are direct children
of the VM root — for every root listing it equals the direct-children sum,
and on a concrete root holding a 3-byte file plus a subdirectory with a
5-byte file it returns 3 where the spec's recursive sum is 8. -/
theorem size_ignores_subdirectories :
    (∀ root : List FsEntry,
      XDGConfigStorage.size root = (root.filterMap FsEntry.fileSize).sum) ∧
    XDGConfigStorage.size
      [FsEntry.file "b" 3, FsEntry.dir "sub" [FsEntry.file "a" 5]] = 3 ∧
    specRecursiveSize
      [FsEntry.file "b" 3, FsEntry.dir "sub" [FsEntry.file "a" 5]] = 8 :=
  ⟨fun _ => rfl, rfl, by simp [specRecursiveSize]⟩

/-- Claim C2 counterexample: a plain `STOP` event parses both as an `Event`
and as the caller's expected `GenericReturn` (whose fields are all
optional), and `read_input` returns it as a successful response instead of
discarding it: under the spec's order the session would instead keep
reading and hit end-of-input. -/
theorem read_input_returns_event_counterexample :
    (parseEvent stopEvent).isSome = true ∧
    parseGenericReturn stopEvent = some GenericReturn.defaultGR ∧
    readInput parseGenericReturn GenericReturn.defaultGR [stopEvent] =
      .ok GenericReturn.defaultGR ∧
    specReadInput parseGenericReturn GenericReturn.defaultGR [stopEvent] =
      .error "Read past end of input" :=
  ⟨rfl, rfl, rfl, rfl⟩

/-- Claim C2 (amended): each framed object is interpreted in this order:
first, if it parses as the caller's expected response type it is returned —
even when it also matches the Event shape; else if it matches an Event it
is discarded and reading continues; else if it matches an error-return the
call fails with `class: desc`; else if it parses as a generic-return it is
converted (success with a default payload unless it carries an error
field); else the original parse error surfaces. -/
theorem read_input_order {T : Type} (pT : Json → Option T) (d : T) (j : Json)
    (rest : List Json) :
    (∀ t, pT j = some t → readInput pT d (j :: rest) = .ok t) ∧
    (pT j = none → (parseEvent j).isSome = true →
      readInput pT d (j :: rest) = readInput pT d rest) ∧
    (pT j = none → parseEvent j = none → ∀ e, parseErrorReturn j = some e →
      readInput pT d (j :: rest) = .error e.error.display) ∧
    (pT j = none → parseEvent j = none → parseErrorReturn j = none →
      ∀ g, parseGenericReturn j = some g →
      readInput pT d (j :: rest) = g.intoResult d) ∧
    (pT j = none → parseEvent j = none → parseErrorReturn j = none →
      parseGenericReturn j = none →
      readInput pT d (j :: rest) = .error "json parse error") := by
  refine ⟨?_, ?_, ?_, ?_, ?_⟩
  · intro t ht
    simp [readInput, ht]
  · intro h1 h2
    obtain ⟨ev, hev⟩ := Option.isSome_iff_exists.mp h2
    simp [readInput, h1, hev]
  · intro h1 h2 e he
    simp [readInput, h1, h2, he]
  · intro h1 h2 h3 g hg
    simp [readInput, h1, h2, h3, hg]
  · intro h1 h2 h3 h4
    simp [readInput, h1, h2, h3, h4]

/-- Claim C2 witness: at a concrete session awaiting a `query-jobs`
response, the concrete `STOP` event does not parse as `QueryJobs`, does
parse as an event, and is discarded, after which the empty remainder
surfaces end-of-input. -/
theorem read_input_order_witness :
    readInput parseQueryJobs (QueryJobs.mk []) [stopEvent] =
      .error "Read past end of input" :=
  ((read_input_order parseQueryJobs (QueryJobs.mk []) stopEvent []).2.1
      rfl rfl).trans rfl

/-- Claim C9: the snapshot-save and snapshot-load argument builders index
the first element of the disk-node list unguarded, so they are defined
exactly when `disk_nodes` of the `query-block` result is nonempty, i.e.
when at least one block device carries an inserted node name; on an empty
list the `disks[0]` access panics (modelled as `none`). -/
theorem snapshot_save_load_need_disk (name : String) (blocks : List Block) :
    ((Client.snapshotSaveArguments name (Client.disk_nodes blocks)).isSome = true ↔
      Client.disk_nodes blocks ≠ []) ∧
    ((Client.snapshotLoadArguments name (Client.disk_nodes blocks)).isSome = true ↔
      Client.disk_nodes blocks ≠ []) ∧
    (Client.disk_nodes blocks ≠ [] ↔
      ∃ b ∈ blocks, ∃ d, b.inserted = some d ∧ ∃ nm, d.node_name = some nm) := by
  refine ⟨?_, ?_, ?_⟩
  · cases Client.disk_nodes blocks <;>
      simp [Client.snapshotSaveArguments]
  · cases Client.disk_nodes blocks <;>
      simp [Client.snapshotLoadArguments]
  · unfold Client.disk_nodes
    rw [Ne, List.filterMap_eq_nil_iff]
    push_neg
    constructor
    · rintro ⟨b, hb, hne⟩
      match hin : b.inserted with
      | none => rw [hin] at hne; simp at hne
      | some d =>
        match hnn : d.node_name with
        | none => rw [hin] at hne; simp [hnn] at hne
        | some nm => exact ⟨b, hb, d, hin, nm, hnn⟩
    · rintro ⟨b, hb, d, hin, nm, hnn⟩
      exact ⟨b, hb, by rw [hin]; simp [hnn]⟩

/-- Helper: `Nat.digitChar` of a value below ten is an ASCII digit. -/
theorem digitChar_isDigit (m : Nat) (h : m < 10) : (Nat.digitChar m).isDigit = true := by
  interval_cases m <;> decide

/-- Helper: every character `Nat.toDigitsCore` adds in base ten is an ASCII
digit. -/
theorem toDigitsCore_all_digits (fuel : Nat) :
    ∀ (n : Nat) (ds : List Char), (∀ c ∈ ds, c.isDigit = true) →
      ∀ c ∈ Nat.toDigitsCore 10 fuel n ds, c.isDigit = true := by
  induction fuel with
  | zero => intro n ds hds; simpa [Nat.toDigitsCore] using hds
  | succ f ih =>
    intro n ds hds c hc
    simp only [Nat.toDigitsCore] at hc
    by_cases h : n / 10 = 0
    · rw [if_pos h] at hc
      rcases List.mem_cons.mp hc with rfl | hmem
      · exact digitChar_isDigit _ (Nat.mod_lt _ (by norm_num))
      · exact hds c hmem
    · rw [if_neg h] at hc
      refine ih (n / 10) (Nat.digitChar (n % 10) :: ds) ?_ c hc
      intro d hd
      rcases List.mem_cons.mp hd with rfl | hmem
      · exact digitChar_isDigit _ (Nat.mod_lt _ (by norm_num))
      · exact hds d hmem

/-- Helper: the decimal rendering of a `Nat` consists of ASCII digits. -/
theorem repr_all_digits (n : Nat) : ∀ c ∈ (Nat.repr n).data, c.isDigit = true := by
  simpa [Nat.repr, Nat.toDigits, List.asString] using
    toDigitsCore_all_digits (n + 1) n [] (by simp)

/-- Helper: `qemu_img_name` starts with a decimal digit, so it never equals a
string starting with the letter q. -/
theorem qemu_img_name_ne_qstart (now : Nat) (s : String)
    (hs : ∃ rest, s.data = 'q' :: rest) : qemu_img_name now ≠ s := by
  intro h
  obtain ⟨rest, hrest⟩ := hs
  have hd := congrArg String.data h
  rw [hrest, qemu_img_name, QEMU_IMG_DEFAULT_FORMAT, String.data_append,
    String.data_append] at hd
  cases hl : (Nat.repr now).data with
  | nil => rw [hl] at hd; simp at hd
  | cons c cs =>
    rw [hl] at hd
    have hq : c = 'q' := by
      have := congrArg List.head? hd
      simpa using this
    have hdig := repr_all_digits now c (by rw [hl]; exact List.mem_cons_self _ _)
    rw [hq] at hdig
    simp at hdig

/-- Claim C3: `QEmuImager::import` does pass the arguments
`convert -f <format> -O qcow2 <orig> <new>` and does preserve the child's
stdout and stderr, but the program it spawns is the freshly generated image
filename (`<unix-seconds>.qcow2`), not the external image tool — for every
clock value the spawned program differs from `qemu-img`. -/
theorem import_spawns_image_filename (now : Nat) (format orig target : String) :
    (QEmuImager.importCommand now format orig target).program = qemu_img_name now ∧
    qemu_img_name now ≠ QEMU_IMG_PATH ∧
    (QEmuImager.importCommand now format orig target).args =
      ["convert", "-f", format, "-O", "qcow2", orig, target] ∧
    (QEmuImager.importCommand now format orig target).stdout_null = false ∧
    (QEmuImager.importCommand now format orig target).stderr_null = false :=
  ⟨rfl,
   qemu_img_name_ne_qstart now _ ⟨['e', 'm', 'u', '-', 'i', 'm', 'g'], by decide⟩,
   rfl, rfl, rfl⟩

/-- Claim C4: the filename built for a new disk is `<unix-seconds>.qcow2`
with no `qemu-` prefix: for every clock value it differs from every string of
the form `qemu-` ++ ..., and in particular from the `qemu-<disk>.qcow2` shape
that the store's own delete-one-disk path removes.  At the concrete time
1700000000 the created file is `1700000000.qcow2`. -/
theorem qemu_img_name_lacks_qemu_prefix (now : Nat) :
    (∀ s : String, qemu_img_name now ≠ "qemu-" ++ s) ∧
    (∀ disk : String, qemu_img_name now ≠ deleteDiskFilename disk) ∧
    qemu_img_name 1700000000 = "1700000000.qcow2" := by
  refine ⟨?_, ?_, by decide⟩
  · intro s
    exact qemu_img_name_ne_qstart now _
      ⟨'e' :: 'm' :: 'u' :: '-' :: s.data, by simp [String.data_append]⟩
  · intro disk
    refine qemu_img_name_ne_qstart now _
      ⟨'e' :: 'm' :: 'u' :: '-' :: (disk ++ "." ++ QEMU_IMG_DEFAULT_FORMAT).data, ?_⟩
    rw [deleteDiskFilename]
    rw [show "qemu-" ++ disk ++ "." ++ QEMU_IMG_DEFAULT_FORMAT =
      "qemu-" ++ (disk ++ "." ++ QEMU_IMG_DEFAULT_FORMAT) by
        simp [String.append_assoc]]
    simp [String.data_append]

/-- Claim C10: the accessor `extra_disk()` returns the VM's cdrom override,
not the stored extra-disk field: after `set_extra_disk(p)` on a VM whose
cdrom is unset it returns `none`, and after `set_cdrom(q)` it returns
`some q` regardless of any earlier `set_extra_disk`. -/
theorem extra_disk_returns_cdrom (vm : VM) (p q : String)
    (h : vm.cdrom = none) :
    (vm.set_extra_disk p).extraDiskGet = none ∧
    (vm.set_cdrom q).extraDiskGet = some q ∧
    ((vm.set_extra_disk p).set_cdrom q).extraDiskGet = some q ∧
    ((vm.set_cdrom q).set_extra_disk p).extraDiskGet = some q := by
  refine ⟨?_, rfl, rfl, rfl⟩
  simp [VM.set_extra_disk, VM.extraDiskGet, h]

/-- Claim C10 witness: the behaviour at a concrete VM (the default VM, whose
cdrom is unset) with concrete paths. -/
theorem extra_disk_returns_cdrom_witness :
    (VM.defaultVM.set_extra_disk "/extra.img").extraDiskGet = none ∧
    (VM.defaultVM.set_cdrom "/cd.iso").extraDiskGet = some "/cd.iso" ∧
    ((VM.defaultVM.set_extra_disk "/extra.img").set_cdrom "/cd.iso").extraDiskGet
        = some "/cd.iso" ∧
    ((VM.defaultVM.set_cdrom "/cd.iso").set_extra_disk "/extra.img").extraDiskGet
        = some "/cd.iso" :=
  extra_disk_returns_cdrom VM.defaultVM "/extra.img" "/cd.iso" rfl

end Emu
